import Mathlib

/-!
Verification of the token-issuance/verification and cookie-session lifecycle
of `src/lib/auth.ts`, and of the client auth-state reducer of
`src/context/UserContext.tsx`, for the next-boiler repository.

External collaborators (the jsonwebtoken and bcryptjs libraries, the
Next.js cookie store) are modelled as idealized black boxes, as the spec
treats them; everything in `auth.ts` and the reducer file is embedded
directly from the source.
-/

namespace NextBoiler

/-! ## Token service (src/lib/auth.ts) -/

/-- Configuration of the token service: the two signing secrets
(environment variables JWT_SECRET and JWT_REFRESH_SECRET) and the two
expiry windows in seconds (JWT_CONFIG.ACCESS_TOKEN_EXPIRES_IN, default
"15m" = 900 s, and REFRESH_TOKEN_EXPIRES_IN, default "7d" = 604800 s). -/
structure JWTConfig where
  accessSecret : String
  refreshSecret : String
  accessExpiresIn : Nat
  refreshExpiresIn : Nat
deriving DecidableEq

/-- The configuration when no environment override is present: expiry
"15m" (900 seconds) for access tokens and "7d" (604800 seconds) for
refresh tokens. -/
def defaultJWTConfig (accessSecret refreshSecret : String) : JWTConfig :=
  { accessSecret := accessSecret
    refreshSecret := refreshSecret
    accessExpiresIn := 15 * 60
    refreshExpiresIn := 7 * 24 * 60 * 60 }

/-- Idealized model of a JWT string, as produced and consumed by the
jsonwebtoken library: either a well-formed token carrying a payload, the
secret it was signed with, and an absolute expiry timestamp (seconds), or
an arbitrary malformed string that is not a well-formed token at all. -/
inductive Token (P : Type) where
  | signed (payload : P) (secret : String) (exp : Nat)
  | malformed (raw : String)
deriving DecidableEq

/-- Failure causes of jwt.verify; the library surfaces them as thrown
exceptions. -/
inductive JwtError where
  | expired
  | invalidSignature
  | malformedToken
deriving DecidableEq

/-- Idealized jwt.sign: signing payload p with a secret at time now, with a
relative expiry of expiresIn seconds. -/
def jwtSign {P : Type} (payload : P) (secret : String) (now expiresIn : Nat) : Token P :=
  Token.signed payload secret (now + expiresIn)

/-- Idealized jwt.verify: checks the signature (secret equality in the
model) and the expiry against the clock; any failure is an error (a thrown
exception in the library). A token is expired once the clock has reached
its exp timestamp. -/
def jwtVerify {P : Type} (t : Token P) (secret : String) (now : Nat) : Except JwtError P :=
  match t with
  | Token.malformed _ => Except.error JwtError.malformedToken
  | Token.signed p s e =>
      if s ≠ secret then Except.error JwtError.invalidSignature
      else if e ≤ now then Except.error JwtError.expired
      else Except.ok p

/-- generateAccessToken from src/lib/auth.ts line 22: signs the payload
with JWT_SECRET and the configured access expiry. The signing clock is an
explicit parameter of the embedding. -/
def generateAccessToken {P : Type} (cfg : JWTConfig) (payload : P) (now : Nat) : Token P :=
  jwtSign payload cfg.accessSecret now cfg.accessExpiresIn

/-- generateRefreshToken from src/lib/auth.ts line 26: signs the payload
with JWT_REFRESH_SECRET and the configured refresh expiry. -/
def generateRefreshToken {P : Type} (cfg : JWTConfig) (payload : P) (now : Nat) : Token P :=
  jwtSign payload cfg.refreshSecret now cfg.refreshExpiresIn

/-- verifyAccessToken from src/lib/auth.ts lines 30-36: jwt.verify under
JWT_SECRET inside try/catch; every thrown verification error is swallowed
and collapsed to null. Totality of this function is the embedding of the
fact that no exception escapes. -/
def verifyAccessToken {P : Type} (cfg : JWTConfig) (t : Token P) (now : Nat) : Option P :=
  match jwtVerify t cfg.accessSecret now with
  | Except.ok p => some p
  | Except.error _ => none

/-- verifyRefreshToken from src/lib/auth.ts lines 38-44: same contract as
verifyAccessToken with JWT_REFRESH_SECRET. -/
def verifyRefreshToken {P : Type} (cfg : JWTConfig) (t : Token P) (now : Nat) : Option P :=
  match jwtVerify t cfg.refreshSecret now with
  | Except.ok p => some p
  | Except.error _ => none

/-! ## Password hashing (src/lib/auth.ts lines 14-20) -/

/-- Idealized model of a bcrypt hash: it determines the password it was
derived from (collisions are neglected, as the spec allows) and records
the cost factor. -/
structure BcryptHash where
  password : String
  cost : Nat
deriving DecidableEq

/-- Idealized bcrypt.hash. -/
def bcryptHash (password : String) (cost : Nat) : BcryptHash :=
  { password := password, cost := cost }

/-- Idealized bcrypt.compare: true exactly when the candidate password
matches the one the hash was derived from. -/
def bcryptCompare (password : String) (h : BcryptHash) : Bool :=
  password == h.password

/-- hashPassword from src/lib/auth.ts line 14: bcrypt.hash with fixed cost
factor 12. -/
def hashPassword (password : String) : BcryptHash :=
  bcryptHash password 12

/-- verifyPassword from src/lib/auth.ts line 18: bcrypt.compare. -/
def verifyPassword (password : String) (hashedPassword : BcryptHash) : Bool :=
  bcryptCompare password hashedPassword

/-! ## Cookie store (src/lib/auth.ts lines 54-87) -/

/-- Options attached to a cookie by cookieStore.set. -/
structure CookieOptions where
  httpOnly : Bool
  secure : Bool
  sameSite : String
  maxAge : Nat
deriving DecidableEq

/-- A named cookie with its value and options. -/
structure Cookie where
  name : String
  value : String
  options : CookieOptions
deriving DecidableEq

/-- The request cookie store obtained from cookies() in next/headers,
modelled as a list of cookies with at most one lookup result per name. -/
abbrev CookieStore := List Cookie

/-- cookieStore.delete: removes every cookie of the given name. -/
def deleteCookie (s : CookieStore) (n : String) : CookieStore :=
  s.filter (fun c => c.name != n)

/-- cookieStore.set: stores the cookie, replacing any existing cookie of
the same name. -/
def setCookie (s : CookieStore) (c : Cookie) : CookieStore :=
  c :: deleteCookie s c.name

/-- cookieStore.get: the first cookie of the given name, if any. -/
def getCookie : CookieStore → String → Option Cookie
  | [], _ => none
  | c :: rest, n => if c.name == n then some c else getCookie rest n

/-- setAuthCookies from src/lib/auth.ts lines 54-70: writes the
access_token cookie (httpOnly, secure iff NODE_ENV is production,
sameSite lax, maxAge 15 minutes) and then the refresh_token cookie (same
flags, maxAge 7 days). nodeEnv is the NODE_ENV environment value. -/
def setAuthCookies (nodeEnv : String) (s : CookieStore)
    (accessToken refreshToken : String) : CookieStore :=
  setCookie
    (setCookie s
      { name := "access_token"
        value := accessToken
        options :=
          { httpOnly := true
            secure := nodeEnv == "production"
            sameSite := "lax"
            maxAge := 15 * 60 } })
    { name := "refresh_token"
      value := refreshToken
      options :=
        { httpOnly := true
          secure := nodeEnv == "production"
          sameSite := "lax"
          maxAge := 7 * 24 * 60 * 60 } }

/-- clearAuthCookies from src/lib/auth.ts lines 72-77: deletes the
access_token cookie and then the refresh_token cookie. -/
def clearAuthCookies (s : CookieStore) : CookieStore :=
  deleteCookie (deleteCookie s "access_token") "refresh_token"

/-- getAccessToken from src/lib/auth.ts lines 79-82:
cookieStore.get("access_token")?.value. -/
def getAccessToken (s : CookieStore) : Option String :=
  (getCookie s "access_token").map Cookie.value

/-- getRefreshToken from src/lib/auth.ts lines 84-87:
cookieStore.get("refresh_token")?.value. -/
def getRefreshToken (s : CookieStore) : Option String :=
  (getCookie s "refresh_token").map Cookie.value

/-! ## Client auth state (src/context/UserContext.tsx) -/

/-- The User entity (lib/types). Its exact field set does not matter to
the reducer; a representative record with the documented identifying
fields is used. -/
structure User where
  id : String
  email : String
  name : String
deriving DecidableEq

/-- A Partial User payload for UPDATE_USER: every field optional. -/
structure PartialUser where
  id : Option String
  email : Option String
  name : Option String
deriving DecidableEq

/-- The spread merge of the UPDATE_USER case: fields present in the
partial payload override the current user, the rest are kept. -/
def mergeUser (u : User) (p : PartialUser) : User :=
  { id := p.id.getD u.id
    email := p.email.getD u.email
    name := p.name.getD u.name }

/-- AuthState from src/context/UserContext.tsx lines 45-50. -/
structure AuthState where
  user : Option User
  isLoading : Bool
  isAuthenticated : Bool
  token : Option String
deriving DecidableEq

/-- AuthAction from src/context/UserContext.tsx lines 52-58. -/
inductive AuthAction where
  | setLoading (payload : Bool)
  | setUser (payload : User)
  | setToken (payload : String)
  | logout
  | updateUser (payload : PartialUser)
  | clearAuth
deriving DecidableEq

/-- initialState from src/context/UserContext.tsx lines 77-82. -/
def initialState : AuthState :=
  { user := none
    isLoading := false
    isAuthenticated := false
    token := none }

/-- authReducer from src/context/UserContext.tsx lines 85-117. -/
def authReducer (state : AuthState) (action : AuthAction) : AuthState :=
  match action with
  | AuthAction.setLoading b => { state with isLoading := b }
  | AuthAction.setUser u =>
      { state with
        user := some u
        isAuthenticated := true
        isLoading := false }
  | AuthAction.setToken t => { state with token := some t }
  | AuthAction.updateUser p =>
      { state with
        user := match state.user with
          | some u => some (mergeUser u p)
          | none => none }
  | AuthAction.logout => { initialState with isLoading := false }
  | AuthAction.clearAuth => { initialState with isLoading := false }

/-- The mock user dispatched by login and register (the empty object
literal at src/context/UserContext.tsx line 136). -/
def mockUser : User :=
  { id := "", email := "", name := "" }

/-- The mock token dispatched by login
(src/context/UserContext.tsx line 138). -/
def mockToken : String := "jwt-token"

/-- login from src/context/UserContext.tsx lines 129-151: dispatches
SET_LOADING true, then unconditionally SET_TOKEN with the mock token and
SET_USER with the mock user; no network call is made and nothing in the
try block can throw, so the catch branch is unreachable. The email and
password arguments are ignored by the source. -/
def login (state : AuthState) (_email _password : String) : AuthState :=
  authReducer
    (authReducer
      (authReducer state (AuthAction.setLoading true))
      (AuthAction.setToken mockToken))
    (AuthAction.setUser mockUser)

/-- JavaScript truthiness test of a string-or-null value: null and the
empty string are falsy. -/
def strFalsy : Option String → Bool
  | none => true
  | some t => t == ""

/-- refreshUser from src/context/UserContext.tsx lines 191-206: returns
early when state.token is falsy (the check is !state.token, so both a
null token and an empty-string token short-circuit); otherwise dispatches
SET_LOADING true and then SET_LOADING false. -/
def refreshUser (state : AuthState) : AuthState :=
  if strFalsy state.token then state
  else
    authReducer
      (authReducer state (AuthAction.setLoading true))
      (AuthAction.setLoading false)

/-! ## Theorems -/

/-- C1: for every payload P, verifyAccessToken applied to
generateAccessToken of P returns a payload equal to P when evaluated
before the configured access expiry elapses (signing time plus
accessExpiresIn, 900 s in the default "15m" configuration), and returns
null once the expiry has elapsed. -/
theorem verifyAccessToken_generateAccessToken_roundtrip {P : Type}
    (cfg : JWTConfig) (payload : P) (t0 t1 : Nat) :
    (t1 < t0 + cfg.accessExpiresIn →
      verifyAccessToken cfg (generateAccessToken cfg payload t0) t1 = some payload) ∧
    (t0 + cfg.accessExpiresIn ≤ t1 →
      verifyAccessToken cfg (generateAccessToken cfg payload t0) t1 = none) := by
  constructor
  · intro h
    simp [verifyAccessToken, generateAccessToken, jwtSign, jwtVerify, Nat.not_le.mpr h]
  · intro h
    simp [verifyAccessToken, generateAccessToken, jwtSign, jwtVerify, h]

/-- Witness for C1 at the default "15m" configuration: the token signed at
time 0 verifies at time 899 and is rejected at time 900. -/
theorem verifyAccessToken_generateAccessToken_roundtrip_witness :
    verifyAccessToken (defaultJWTConfig "acc" "ref")
      (generateAccessToken (defaultJWTConfig "acc" "ref") (0 : Nat) 0) 899 = some 0 ∧
    verifyAccessToken (defaultJWTConfig "acc" "ref")
      (generateAccessToken (defaultJWTConfig "acc" "ref") (0 : Nat) 0) 900 = none :=
  ⟨(verifyAccessToken_generateAccessToken_roundtrip (defaultJWTConfig "acc" "ref") 0 0 899).1
      (by decide),
   (verifyAccessToken_generateAccessToken_roundtrip (defaultJWTConfig "acc" "ref") 0 0 900).2
      (by decide)⟩

/-- C2: verifyAccessToken (likewise verifyRefreshToken) is a total
function into an optional payload, so no exception escapes; it returns
null on an expired token, on a malformed string, and on a token signed
with a different secret (in particular on a refresh token, when the two
secrets differ); and it returns a non-null payload only for a token
signed with its own secret that is not yet expired. -/
theorem verify_token_failure_contract {P : Type} (cfg : JWTConfig) (now : Nat) :
    (∀ raw : String, verifyAccessToken cfg (Token.malformed (P := P) raw) now = none) ∧
    (∀ (p : P) (s : String) (e : Nat), s ≠ cfg.accessSecret →
      verifyAccessToken cfg (Token.signed p s e) now = none) ∧
    (∀ (p : P) (e : Nat), e ≤ now →
      verifyAccessToken cfg (Token.signed p cfg.accessSecret e) now = none) ∧
    (cfg.refreshSecret ≠ cfg.accessSecret →
      ∀ (p : P) (t0 : Nat),
        verifyAccessToken cfg (generateRefreshToken cfg p t0) now = none) ∧
    (∀ (t : Token P) (p : P), verifyAccessToken cfg t now = some p →
      ∃ e, t = Token.signed p cfg.accessSecret e ∧ now < e) ∧
    (∀ raw : String, verifyRefreshToken cfg (Token.malformed (P := P) raw) now = none) ∧
    (∀ (t : Token P) (p : P), verifyRefreshToken cfg t now = some p →
      ∃ e, t = Token.signed p cfg.refreshSecret e ∧ now < e) := by
  refine ⟨fun raw => rfl, ?_, ?_, ?_, ?_, fun raw => rfl, ?_⟩
  · intro p s e h
    simp [verifyAccessToken, jwtVerify, h]
  · intro p e h
    simp [verifyAccessToken, jwtVerify, h]
  · intro hsec p t0
    simp [verifyAccessToken, generateRefreshToken, jwtSign, jwtVerify, hsec]
  · intro t p h
    match t with
    | Token.malformed raw => simp [verifyAccessToken, jwtVerify] at h
    | Token.signed q s e =>
        simp only [verifyAccessToken, jwtVerify] at h
        by_cases hs : s = cfg.accessSecret
        · subst hs
          by_cases he : e ≤ now
          · simp [he] at h
          · refine ⟨e, ?_, Nat.lt_of_not_le he⟩
            simp [he] at h
            simp [h]
        · simp [hs] at h
  · intro t p h
    match t with
    | Token.malformed raw => simp [verifyRefreshToken, jwtVerify] at h
    | Token.signed q s e =>
        simp only [verifyRefreshToken, jwtVerify] at h
        by_cases hs : s = cfg.refreshSecret
        · subst hs
          by_cases he : e ≤ now
          · simp [he] at h
          · refine ⟨e, ?_, Nat.lt_of_not_le he⟩
            simp [he] at h
            simp [h]
        · simp [hs] at h

/-- Witness for C2 at a concrete configuration with distinct secrets and
clock 10: a malformed string, a token under the wrong secret, an expired
token, and a freshly minted refresh token are all rejected by
verifyAccessToken, and the soundness directions are exercised on valid
access and refresh tokens. -/
theorem verify_token_failure_contract_witness :
    verifyAccessToken (defaultJWTConfig "acc" "ref")
      (Token.malformed (P := Nat) "not-a-jwt") 10 = none ∧
    verifyAccessToken (defaultJWTConfig "acc" "ref")
      (Token.signed (7 : Nat) "other" 99) 10 = none ∧
    verifyAccessToken (defaultJWTConfig "acc" "ref")
      (Token.signed (7 : Nat) "acc" 5) 10 = none ∧
    verifyAccessToken (defaultJWTConfig "acc" "ref")
      (generateRefreshToken (defaultJWTConfig "acc" "ref") (7 : Nat) 0) 10 = none ∧
    (∃ e, Token.signed (7 : Nat) "acc" 99 = Token.signed 7 "acc" e ∧ 10 < e) ∧
    (∃ e, Token.signed (7 : Nat) "ref" 99 = Token.signed 7 "ref" e ∧ 10 < e) :=
  ⟨(verify_token_failure_contract (defaultJWTConfig "acc" "ref") 10).1 "not-a-jwt",
   (verify_token_failure_contract (defaultJWTConfig "acc" "ref") 10).2.1 7 "other" 99
      (by decide),
   (verify_token_failure_contract (defaultJWTConfig "acc" "ref") 10).2.2.1 7 5 (by decide),
   (verify_token_failure_contract (defaultJWTConfig "acc" "ref") 10).2.2.2.1 (by decide) 7 0,
   (verify_token_failure_contract (defaultJWTConfig "acc" "ref") 10).2.2.2.2.1
      (Token.signed 7 "acc" 99) 7 (by decide),
   (verify_token_failure_contract (defaultJWTConfig "acc" "ref") 10).2.2.2.2.2.2
      (Token.signed 7 "ref" 99) 7 (by decide)⟩

/-- C3: verifying a password against its own hash succeeds; verifying a
different password against that hash fails (exactly, in the idealized
collision-free model of bcrypt); hashPassword is total on strings and
uses the fixed cost factor 12. -/
theorem password_hash_contract (p p1 p2 : String) :
    verifyPassword p (hashPassword p) = true ∧
    (p1 ≠ p2 → verifyPassword p1 (hashPassword p2) = false) ∧
    (hashPassword p).cost = 12 := by
  refine ⟨?_, ?_, rfl⟩
  · simp [verifyPassword, hashPassword, bcryptCompare, bcryptHash]
  · intro h
    simp [verifyPassword, hashPassword, bcryptCompare, bcryptHash, h]

/-- Witness for C3: the password "hunter2" verifies against its own hash,
"hunter3" does not, and the hash records cost 12. -/
theorem password_hash_contract_witness :
    verifyPassword "hunter2" (hashPassword "hunter2") = true ∧
    (verifyPassword "hunter3" (hashPassword "hunter2") = false) ∧
    (hashPassword "hunter2").cost = 12 :=
  ⟨(password_hash_contract "hunter2" "hunter3" "hunter2").1,
   (password_hash_contract "hunter2" "hunter3" "hunter2").2.1 (by decide),
   (password_hash_contract "hunter2" "hunter3" "hunter2").2.2⟩

/-- Looking up a name in a store from which that very name was deleted
finds nothing. -/
theorem getCookie_deleteCookie_self (s : CookieStore) (n : String) :
    getCookie (deleteCookie s n) n = none := by
  induction s with
  | nil => rfl
  | cons c rest ih =>
      by_cases h : c.name = n
      · simpa [deleteCookie, List.filter_cons, h] using ih
      · simpa [deleteCookie, getCookie, List.filter_cons, h] using ih

/-- Deleting one name does not disturb lookups of a different name. -/
theorem getCookie_deleteCookie_ne (s : CookieStore) (n m : String) (h : m ≠ n) :
    getCookie (deleteCookie s n) m = getCookie s m := by
  induction s with
  | nil => rfl
  | cons c rest ih =>
      simp only [deleteCookie, List.filter_cons] at ih ⊢
      by_cases hc : c.name = n
      · have hnm : n ≠ m := fun e => h e.symm
        have hcm : c.name ≠ m := hc ▸ hnm
        simp [hc, getCookie, hcm, hnm, ih]
      · simp [hc, getCookie, ih]

/-- Setting a cookie does not disturb lookups of a different name. -/
theorem getCookie_setCookie_ne (s : CookieStore) (c : Cookie) (n : String)
    (h : n ≠ c.name) :
    getCookie (setCookie s c) n = getCookie s n := by
  have hb : (c.name == n) = false := by
    simp only [beq_eq_false_iff_ne]
    exact fun e => h e.symm
  simp [setCookie, getCookie, hb, getCookie_deleteCookie_ne _ _ _ h]

/-- C4: after setAuthCookies(a, r) on any cookie-store state,
getAccessToken returns a and getRefreshToken returns r; after
clearAuthCookies on any state, both return undefined (none). -/
theorem auth_cookie_roundtrip (env : String) (s : CookieStore) (a r : String) :
    getAccessToken (setAuthCookies env s a r) = some a ∧
    getRefreshToken (setAuthCookies env s a r) = some r ∧
    getAccessToken (clearAuthCookies s) = none ∧
    getRefreshToken (clearAuthCookies s) = none := by
  refine ⟨rfl, rfl, ?_, ?_⟩
  · unfold getAccessToken clearAuthCookies
    rw [getCookie_deleteCookie_ne _ _ _ (by decide), getCookie_deleteCookie_self]
    rfl
  · unfold getRefreshToken clearAuthCookies
    rw [getCookie_deleteCookie_self]
    rfl

/-- C8: setAuthCookies writes exactly the cookies access_token and
refresh_token — both httpOnly, secure iff NODE_ENV is "production",
sameSite lax, with maxAge 900 s for access_token and 604800 s for
refresh_token — and leaves every other cookie name untouched. -/
theorem setAuthCookies_cookie_contract (env : String) (s : CookieStore) (a r : String) :
    getCookie (setAuthCookies env s a r) "access_token" =
      some { name := "access_token", value := a,
             options := { httpOnly := true, secure := env == "production",
                          sameSite := "lax", maxAge := 900 } } ∧
    getCookie (setAuthCookies env s a r) "refresh_token" =
      some { name := "refresh_token", value := r,
             options := { httpOnly := true, secure := env == "production",
                          sameSite := "lax", maxAge := 604800 } } ∧
    ∀ n : String, n ≠ "access_token" → n ≠ "refresh_token" →
      getCookie (setAuthCookies env s a r) n = getCookie s n := by
  refine ⟨rfl, rfl, ?_⟩
  intro n h1 h2
  unfold setAuthCookies
  rw [getCookie_setCookie_ne _ _ _ h2, getCookie_setCookie_ne _ _ _ h1]

/-- Witness for C8 at a concrete state: both auth cookies are present with
the specified attributes after the write, and an unrelated cookie named
"theme" is untouched. -/
theorem setAuthCookies_cookie_contract_witness :
    getCookie (setAuthCookies "production"
        [{ name := "theme", value := "dark",
           options := { httpOnly := false, secure := false,
                        sameSite := "lax", maxAge := 1 } }] "A" "R") "access_token" =
      some { name := "access_token", value := "A",
             options := { httpOnly := true, secure := true,
                          sameSite := "lax", maxAge := 900 } } ∧
    getCookie (setAuthCookies "production"
        [{ name := "theme", value := "dark",
           options := { httpOnly := false, secure := false,
                        sameSite := "lax", maxAge := 1 } }] "A" "R") "theme" =
      getCookie
        [{ name := "theme", value := "dark",
           options := { httpOnly := false, secure := false,
                        sameSite := "lax", maxAge := 1 } }] "theme" :=
  ⟨(setAuthCookies_cookie_contract "production"
      [{ name := "theme", value := "dark",
         options := { httpOnly := false, secure := false,
                      sameSite := "lax", maxAge := 1 } }] "A" "R").1,
   (setAuthCookies_cookie_contract "production"
      [{ name := "theme", value := "dark",
         options := { httpOnly := false, secure := false,
                      sameSite := "lax", maxAge := 1 } }] "A" "R").2.2 "theme"
      (by decide) (by decide)⟩

/-- C5: from every state, LOGOUT yields exactly the initial state (user
null, not loading, not authenticated, token null), and CLEAR_AUTH yields
the same result. -/
theorem authReducer_logout_resets (s : AuthState) :
    authReducer s AuthAction.logout = initialState ∧
    authReducer s AuthAction.clearAuth = initialState ∧
    initialState =
      { user := none, isLoading := false, isAuthenticated := false, token := none } :=
  ⟨rfl, rfl, rfl⟩

/-- C6: the fresh provider state is unauthenticated, and login run to
completion from any state and any credentials unconditionally ends
authenticated and not loading, holding the placeholder token and the
placeholder (mock) user — no network call is modelled because the source
makes none. -/
theorem login_unconditionally_authenticates (s : AuthState) (email password : String) :
    initialState.isAuthenticated = false ∧
    (login s email password).isAuthenticated = true ∧
    (login s email password).isLoading = false ∧
    (login s email password).token = some mockToken ∧
    (login s email password).user = some mockUser :=
  ⟨rfl, rfl, rfl, rfl, rfl⟩

/-- C7: from every state and for every user payload, including the empty
mock user, the SET_USER case sets isAuthenticated to true unconditionally,
with no check that a token exists. -/
theorem authReducer_setUser_always_authenticates (s : AuthState) (u : User) :
    (authReducer s (AuthAction.setUser u)).isAuthenticated = true :=
  rfl

/-- C9 counterexample: at the state with isLoading true and the non-null
but empty-string token, refreshUser returns early (the source guard is
the falsy test !state.token, which an empty string also satisfies), so
the run does not end with isLoading false as the claim requires of every
non-null token. -/
theorem refreshUser_empty_token_counterexample :
    ¬ ((AuthState.mk none true false (some "")).token ≠ none →
        (refreshUser (AuthState.mk none true false (some ""))).isLoading = false) := by
  decide

/-- C9 amended: when the token is falsy (null or the empty string),
refreshUser leaves the state entirely unchanged; when the token is a
non-empty string, the run changes only the isLoading flag, which ends
false. -/
theorem refreshUser_frame (s : AuthState) :
    (strFalsy s.token = true → refreshUser s = s) ∧
    (strFalsy s.token = false → refreshUser s = { s with isLoading := false }) := by
  constructor
  · intro h
    simp [refreshUser, h]
  · intro h
    simp [refreshUser, h, authReducer]

/-- Witness for the amended C9: a state with a null token is unchanged,
and a state with the non-empty token "t", loading, has exactly its
isLoading flag cleared. -/
theorem refreshUser_frame_witness :
    refreshUser (AuthState.mk none true false none) = AuthState.mk none true false none ∧
    refreshUser (AuthState.mk none true true (some "t")) =
      AuthState.mk none false true (some "t") :=
  ⟨(refreshUser_frame (AuthState.mk none true false none)).1 (by decide),
   (refreshUser_frame (AuthState.mk none true true (some "t"))).2 (by decide)⟩

/-- C10: the UPDATE_USER case changes only the user field — isLoading,
isAuthenticated and token are preserved — and when the current user is
null the user field stays null: a partial update never creates a user. -/
theorem authReducer_updateUser_frame (s : AuthState) (p : PartialUser) :
    (authReducer s (AuthAction.updateUser p)).isLoading = s.isLoading ∧
    (authReducer s (AuthAction.updateUser p)).isAuthenticated = s.isAuthenticated ∧
    (authReducer s (AuthAction.updateUser p)).token = s.token ∧
    (s.user = none → (authReducer s (AuthAction.updateUser p)).user = none) := by
  refine ⟨rfl, rfl, rfl, ?_⟩
  intro h
  simp [authReducer, h]

/-- Witness for C10 at the initial (user-null) state with a partial
payload that sets an email: the user stays null and the frame fields are
untouched. -/
theorem authReducer_updateUser_frame_witness :
    (authReducer initialState
      (AuthAction.updateUser (PartialUser.mk none (some "a@b.com") none))).user = none :=
  (authReducer_updateUser_frame initialState
    (PartialUser.mk none (some "a@b.com") none)).2.2.2 (by decide)

end NextBoiler
